import Mathlib

/-!
Verification of the image-tile resolution and retrieval subsystem of the
interactive-sam2 labeling tool.

Shallow embedding of `src/interactive_label_sam2/gcs_utils.py` and
`src/interactive_label_sam2/data_management.py`.  GeoDataFrames are embedded
as Lean lists of row structures (pandas filtering preserves row order, which
the lists keep).  Floating-point coordinates are embedded as exact rationals;
the claims under study concern control flow and window geometry, not float
rounding.  File-system and network effects are made explicit arguments:
whether a file exists, what parsing returned, and what `rasterio.open` finds
at each remote path.
-/

/-- One row of the UID→basemap correspondence GeoDataFrame: columns `UID`,
`id` (image identifier), `planet_basemap_year` (after `astype(int)`), and the
row geometry (embedded as a list of rational coordinate pairs). -/
structure CorrRow where
  uid : String
  image_id : String
  year : Int
  geom : List (ℚ × ℚ)
deriving DecidableEq

/-- The correspondence GeoDataFrame as a whole: its declared CRS plus rows. -/
structure CorrTable where
  crs : String
  rows : List CorrRow
deriving DecidableEq

/-- Embeds `load_correspondence_data` (gcs_utils.py lines 14-34).
`pathExists` models `correspondence_path.exists()`; `parsed` models the
outcome of `gpd.read_file` inside the try block (`none` = the call raised).
The source returns the parsed frame as is (or `None` on either failure);
it contains no CRS inspection, override, or reprojection. -/
def load_correspondence_data (pathExists : Bool) (parsed : Option CorrTable) :
    Option CorrTable :=
  if pathExists then parsed else none

/-- `correspondence_gdf[correspondence_gdf['UID'] == uid]` (line 51). -/
def uidRows (gdf : List CorrRow) (uid : String) : List CorrRow :=
  gdf.filter (fun r => r.uid = uid)

/-- The distinct `id` values of the filtered rows (the groupby keys of
line 60).  Group order does not affect the year selection below, which only
depends on the multiset of per-group maxima. -/
def imageIds (rows : List CorrRow) : List String :=
  (rows.map (fun r => r.image_id)).dedup

/-- The years available for one `image_id` among the given rows. -/
def yearsOf (rows : List CorrRow) (i : String) : List Int :=
  (rows.filter (fun r => r.image_id = i)).map (fun r => r.year)

/-- Maximum of a list of years, `0` for the empty list (only applied to
nonempty lists below). -/
def latestYear (l : List Int) : Int :=
  match l with
  | [] => 0
  | x :: xs => xs.foldl max x

/-- `uid_features.groupby('id')['planet_basemap_year'].max()` (line 60):
the latest year available for each distinct `image_id`. -/
def latestYears (rows : List CorrRow) : List Int :=
  (imageIds rows).map (fun i => latestYear (yearsOf rows i))

/-- `y` occurs in `l` at least as often as every other value: the defining
property of a pandas mode. -/
def isModal (l : List Int) (y : Int) : Bool :=
  l.all (fun z => decide (l.count z ≤ l.count y))

/-- `latest_years.mode()[0]` with the source's fallback (lines 63-68):
pandas `Series.mode()` lists the most frequent values in ascending order, so
index `[0]` is the smallest value of maximal multiplicity; when
`latest_years` is empty the source defaults to `2023`. -/
def commonYear (rows : List CorrRow) : Int :=
  let ly := latestYears rows
  match ly.filter (isModal ly) with
  | [] => 2023
  | x :: xs => xs.foldl min x

/-- `f"{year}q3"` (line 82). -/
def quarterStr (year : Int) : String :=
  year.repr ++ "q3"

/-- `f"global_quarterly_{quarter_str}_mosaic"` (line 86). -/
def mosaicName (year : Int) : String :=
  "global_quarterly_" ++ quarterStr year ++ "_mosaic"

/-- `f"{mosaic_name}_{image_id}_quad.tif"` (line 92). -/
def fileName (year : Int) (image_id : String) : String :=
  mosaicName year ++ "_" ++ image_id ++ "_quad.tif"

/-- `f"{bucket_name}/planet_basemaps/global_quarterly_COGs"` (line 76). -/
def basePath : String :=
  "abrupt_thaw/planet_basemaps/global_quarterly_COGs"

/-- `f"gs://{base_path}/{mosaic_name}/{file_name}"` (line 111). -/
def mkPath (year : Int) (image_id : String) : String :=
  "gs://" ++ basePath ++ "/" ++ mosaicName year ++ "/" ++ fileName year image_id

/-- Embeds `get_image_paths_for_uid` (gcs_utils.py lines 36-115): filter the
table to the UID, select a year, keep the rows of that year, and append one
constructed path per kept row, in row order. -/
def get_image_paths_for_uid (uid : String) (gdf : List CorrRow) : List String :=
  let rows := uidRows gdf uid
  if rows.isEmpty then []
  else
    let y := commonYear rows
    let finalRows := rows.filter (fun r => r.year = y)
    finalRows.foldl (fun acc r => acc ++ [mkPath r.year r.image_id]) []

/-- Spec-side definition, for comparison with the source only.  The distinct
years appearing in the rows (the union of the per-`image_id` year sets). -/
def allYears (rows : List CorrRow) : List Int :=
  (rows.map (fun r => r.year)).dedup

/-- Spec-side definition, following the claim's words: the years present in
every per-`image_id` year set (the intersection). -/
def specCommonYears (rows : List CorrRow) : List Int :=
  (allYears rows).filter (fun y => (imageIds rows).all (fun i => (yearsOf rows i).contains y))

/-- Spec-side definition, following the claim's words: the maximum of the
common years when some exist, otherwise the maximum over the union. -/
def specSelectedYear (rows : List CorrRow) : Int :=
  match specCommonYears rows with
  | [] => latestYear (allYears rows)
  | x :: xs => xs.foldl max x

/-- Spec-side definition, following the claim's words: one candidate per
`image_id` whose year set contains the selected year. -/
def specCandidates (rows : List CorrRow) : List (String × Int) :=
  ((imageIds rows).filter (fun i => (yearsOf rows i).contains (specSelectedYear rows))).map
    (fun i => (i, specSelectedYear rows))

/-- An opened raster dataset as `rasterio.open` presents it to the tile
reader: `src.bounds`, `src.res`, `src.crs`, the band count, and whether
`src.read` succeeds for it (`readOk = false` models any exception raised
while reading, e.g. a network or format error).  The geotransform is the
usual north-up one (`a = xres`, `e = -yres`, `c = left`, `f = top`), which is
what these basemap COGs carry. -/
structure RasterSrc where
  left : ℚ
  bottom : ℚ
  right : ℚ
  top : ℚ
  xres : ℚ
  yres : ℚ
  crs : String
  bandCount : Nat
  readOk : Bool
deriving DecidableEq

/-- A rasterio pixel window in fractional pixel units. -/
structure Window where
  colOff : ℚ
  rowOff : ℚ
  width : ℚ
  height : ℚ
deriving DecidableEq

/-- `rasterio.windows.from_bounds(left, bottom, right, top, transform)` for a
north-up transform. -/
def fromBounds (bleft bbottom bright btop : ℚ) (src : RasterSrc) : Window :=
  { colOff := (bleft - src.left) / src.xres
    rowOff := (src.top - btop) / src.yres
    width := (bright - bleft) / src.xres
    height := (btop - bbottom) / src.yres }

/-- The profile returned with the pixel data; `width`/`height` are the window
dimensions (the source copies them from `data.shape`), `transformC` and
`transformF` the translation part of `src.window_transform(window)`. -/
structure Profile where
  width : ℚ
  height : ℚ
  crs : String
  bandCount : Nat
  transformC : ℚ
  transformF : ℚ
deriving DecidableEq

/-- The (pixel array, profile) pair; the pixel array is represented by the
window it was read from (its shape is the window's). -/
structure TileResult where
  window : Window
  profile : Profile
deriving DecidableEq

/-- The `center_point` argument together with the CRS its callers track for
it (shapely points carry none; `get_image_tile`'s docstring says the point is
"in the image's CRS" and the function itself never inspects any CRS). -/
structure Aoi where
  x : ℚ
  y : ℚ
  crs : String

/-- The loop body of `get_image_tile` for one opened raster (lines 148-180):
the strict bounds check on the center point, then the window around the
center (`half_width = (tile_size / 2) * x_res`), then the read and the
updated profile.  `none` models `continue`. -/
def attemptCore (src : RasterSrc) (cx cy : ℚ) (tileSize : Nat) : Option TileResult :=
  if src.left < cx ∧ cx < src.right ∧ src.bottom < cy ∧ cy < src.top then
    let halfWidth := ((tileSize : ℚ) / 2) * src.xres
    let halfHeight := ((tileSize : ℚ) / 2) * src.yres
    let w := fromBounds (cx - halfWidth) (cy - halfHeight) (cx + halfWidth) (cy + halfHeight) src
    if src.readOk then
      some { window := w
             profile := { width := w.width
                          height := w.height
                          crs := src.crs
                          bandCount := src.bandCount
                          transformC := src.left + w.colOff * src.xres
                          transformF := src.top - w.rowOff * src.yres } }
    else none
  else none

/-- The remote store: what `rasterio.open` finds at a path (`none` = the open
raised, which the source catches and logs). -/
def GcsEnv : Type := String → Option RasterSrc

/-- One full iteration of the source's `for path in gcs_paths` loop:
open the path, then run the body; any failure is absorbed into `none`. -/
def attemptTile (env : GcsEnv) (aoi : Aoi) (tileSize : Nat) (path : String) :
    Option TileResult :=
  match env path with
  | none => none
  | some src => attemptCore src aoi.x aoi.y tileSize

/-- Observable effects of one call: whether `gcsfs.GCSFileSystem()` was
constructed (line 142) and which paths were passed to `rasterio.open`. -/
structure RunLog where
  authDone : Bool
  opened : List String
deriving DecidableEq

/-- The `for`/`continue`/`return` loop over candidate paths, also recording
the paths opened. -/
def tileLoop (attempt : String → Option TileResult) :
    List String → Option TileResult × List String
  | [] => (none, [])
  | p :: rest =>
    match attempt p with
    | some r => (some r, [p])
    | none =>
      let next := tileLoop attempt rest
      (next.1, p :: next.2)

/-- Embeds `get_image_tile` (gcs_utils.py lines 118-187) together with its
observable effects: the early return on an empty path list (lines 137-138)
happens before the GCS client is even constructed. -/
def get_image_tile_run (env : GcsEnv) (aoi : Aoi) (tileSize : Nat)
    (gcsPaths : List String) : Option TileResult × RunLog :=
  if gcsPaths.isEmpty then (none, { authDone := false, opened := [] })
  else
    let out := tileLoop (attemptTile env aoi tileSize) gcsPaths
    (out.1, { authDone := true, opened := out.2 })

/-- The value `get_image_tile` returns to its caller. -/
def get_image_tile (env : GcsEnv) (aoi : Aoi) (tileSize : Nat)
    (gcsPaths : List String) : Option TileResult :=
  (get_image_tile_run env aoi tileSize gcsPaths).1

/-- A coordinate reprojection between named CRSs, point by point. -/
def ReprojFn : Type := String → String → ℚ × ℚ → ℚ × ℚ

/-- Spec-side loop body, following the claim's words: reproject the AOI into
the raster's CRS before computing bounds and window. -/
def attemptTileSpec (reproj : ReprojFn) (env : GcsEnv) (aoi : Aoi)
    (tileSize : Nat) (path : String) : Option TileResult :=
  match env path with
  | none => none
  | some src =>
    let q := reproj aoi.crs src.crs (aoi.x, aoi.y)
    attemptCore src q.1 q.2 tileSize

/-- Spec-side reader, following the claim's words: as the source's reader,
but with the AOI reprojected per raster. -/
def readTileSpec (reproj : ReprojFn) (env : GcsEnv) (aoi : Aoi) (tileSize : Nat)
    (gcsPaths : List String) : Option TileResult :=
  if gcsPaths.isEmpty then none
  else (tileLoop (attemptTileSpec reproj env aoi tileSize) gcsPaths).1

/-- What any genuine reprojection satisfies: it is the identity between equal
CRSs, and between EPSG:4326 (degrees) and EPSG:3413 (polar stereographic
metres) it moves the point (50, 50) — (50°E, 50°N) in degrees is nowhere near
the coordinate (50 m, 50 m) of the stereographic plane. -/
def RealisticReproj (reproj : ReprojFn) : Prop :=
  (∀ c q, reproj c c q = q) ∧
    reproj "EPSG:4326" "EPSG:3413" (50, 50) ≠ (50, 50)

/-- Claim C3 as a proposition: for a genuine reprojection, the tile reader
behaves as the spec-side reader that reprojects the AOI into each raster's
CRS (and uses it as is when the CRSs agree). -/
def tileReaderReprojects : Prop :=
  ∀ reproj : ReprojFn, RealisticReproj reproj →
    ∀ (env : GcsEnv) (aoi : Aoi) (tileSize : Nat) (gcsPaths : List String),
      get_image_tile env aoi tileSize gcsPaths =
        readTileSpec reproj env aoi tileSize gcsPaths

/-- One row of the positive-class ARTS GeoDataFrame.  Its shapely geometry is
embedded as a finite list of rational points; `unary_union` then merges point
sets and `centroid` averages the distinct points, which preserves the
distinction the spec draws between union-then-centroid and averaged
per-geometry centroids. -/
structure FeatRow where
  uid : String
  geom : List (ℚ × ℚ)
deriving DecidableEq

/-- `gdf[gdf['UID'] == uid]` (data_management.py line 75). -/
def matchedRows (gdf : List FeatRow) (uid : String) : List FeatRow :=
  gdf.filter (fun r => r.uid = uid)

/-- `feature_gdf.geometry.unary_union` (line 86) in the point-set model:
the union of the geometries' point sets. -/
def unionGeoms (gs : List (List (ℚ × ℚ))) : List (ℚ × ℚ) :=
  (gs.foldl (fun acc g => acc ++ g) []).dedup

/-- `.centroid` (line 89) in the point-set model: the mean of the points
((0, 0) for an empty geometry, which no claim reaches). -/
def centroidOf (pts : List (ℚ × ℚ)) : ℚ × ℚ :=
  if pts.isEmpty then (0, 0)
  else ((pts.map Prod.fst).sum / pts.length, (pts.map Prod.snd).sum / pts.length)

/-- Embeds `get_feature_info` (data_management.py lines 57-91): filter to the
UID, return `None` when nothing matches, otherwise all matching geometries
plus the centroid of their union. -/
def get_feature_info (uid : String) (gdf : List FeatRow) :
    Option (List (List (ℚ × ℚ)) × (ℚ × ℚ)) :=
  let rows := matchedRows gdf uid
  if rows.isEmpty then none
  else
    let polys := rows.map (fun r => r.geom)
    some (polys, centroidOf (unionGeoms polys))

/-- `needle` occurs as a substring of `hay`. -/
def substrOf (needle hay : String) : Prop :=
  needle.data <:+: hay.data

/-- Correspondence table used as concrete input for the year-selection
claims: image A is only available in 2019, image B only in 2022. -/
def exTable1 : List CorrRow :=
  [{ uid := "u1", image_id := "A", year := 2019, geom := [] },
   { uid := "u1", image_id := "B", year := 2022, geom := [] }]

/-- Correspondence table with a duplicated row. -/
def exTable6 : List CorrRow :=
  [{ uid := "u6", image_id := "A", year := 2020, geom := [] },
   { uid := "u6", image_id := "A", year := 2020, geom := [] }]

/-- Correspondence table with several image ids, used to witness the
year-selection theorem. -/
def exTableW : List CorrRow :=
  [{ uid := "w", image_id := "A", year := 2020, geom := [] },
   { uid := "w", image_id := "B", year := 2021, geom := [] },
   { uid := "w", image_id := "B", year := 2020, geom := [] }]

/-- A parsed correspondence table whose declared CRS is not the canonical
EPSG:3413. -/
def exParsedTable : CorrTable :=
  { crs := "EPSG:4326", rows := [] }

/-- A concrete raster: bounds (0, 0)-(100, 100), one-metre resolution,
EPSG:3413, reads succeed. -/
def srcT : RasterSrc :=
  { left := 0, bottom := 0, right := 100, top := 100, xres := 1, yres := 1
    crs := "EPSG:3413", bandCount := 4, readOk := true }

/-- A store holding exactly one raster, at path "t.tif". -/
def envT : GcsEnv := fun p => if p = "t.tif" then some srcT else none

/-- A store where "bad.tif" cannot be opened and "good.tif" holds `srcT`. -/
def envW : GcsEnv := fun p => if p = "good.tif" then some srcT else none

/-- A concrete AOI at (50, 50) whose callers track it as EPSG:4326, inside
`srcT`'s bounds when read unreprojected. -/
def aoiT : Aoi := { x := 50, y := 50, crs := "EPSG:4326" }

/-- A concrete reprojection model: the identity between equal CRSs, a shift
between distinct ones.  It satisfies `RealisticReproj`. -/
def reprojT : ReprojFn := fun c1 c2 q => if c1 = c2 then q else (q.1 + 1000, q.2)

/-- The tile the reader produces from `envT`/`aoiT` with tile_size 8. -/
def exTileR : TileResult :=
  { window := { colOff := 46, rowOff := 46, width := 8, height := 8 }
    profile := { width := 8, height := 8, crs := "EPSG:3413", bandCount := 4
                 transformC := 46, transformF := 54 } }

/-- The tile the reader produces from `envT`/`aoiT` with tile_size 0: a
zero-width, zero-height window returned as a success. -/
def exTileZero : TileResult :=
  { window := { colOff := 50, rowOff := 50, width := 0, height := 0 }
    profile := { width := 0, height := 0, crs := "EPSG:3413", bandCount := 4
                 transformC := 50, transformF := 50 } }

/-- Positive-feature rows whose geometries overlap unevenly: the centroid of
the union differs from the mean of the per-geometry centroids. -/
def exPolyRows : List FeatRow :=
  [{ uid := "f1", geom := [(0, 0), (2, 0)] }, { uid := "f1", geom := [(0, 0)] }]

/-- The minimum folded over a list is one of the starting value or the list
elements. -/
theorem foldl_min_mem (xs : List Int) (x : Int) : xs.foldl min x ∈ x :: xs := by
  induction xs generalizing x with
  | nil => simp
  | cons z zs ih =>
    rw [List.foldl_cons]
    rcases List.mem_cons.mp (ih (min x z)) with h1 | h1
    · rw [h1]
      rcases min_choice x z with h2 | h2 <;> rw [h2] <;> simp
    · simp [h1]

/-- The minimum folded over a list bounds the starting value and every
element from below. -/
theorem foldl_min_le (xs : List Int) (x : Int) :
    ∀ z ∈ x :: xs, xs.foldl min x ≤ z := by
  induction xs generalizing x with
  | nil => simp
  | cons w ws ih =>
    intro z hz
    have hall := ih (min x w)
    have hle : ws.foldl min (min x w) ≤ min x w := hall _ (List.mem_cons_self _ _)
    rw [List.foldl_cons]
    rcases List.mem_cons.mp hz with h1 | h1
    · rw [h1]
      exact hle.trans (min_le_left _ _)
    · rcases List.mem_cons.mp h1 with h2 | h2
      · rw [h2]
        exact hle.trans (min_le_right _ _)
      · exact hall z (List.mem_cons_of_mem _ h2)

/-- Every nonempty list of years has a value of maximal multiplicity. -/
theorem exists_modal (l : List Int) (h : l ≠ []) :
    ∃ y ∈ l, isModal l y = true := by
  obtain ⟨m, hm⟩ := Option.ne_none_iff_exists'.mp
    (fun hn => h (List.argmax_eq_none.mp hn) : l.argmax (fun z => l.count z) ≠ none)
  refine ⟨m, List.argmax_mem hm, ?_⟩
  simp only [isModal, List.all_eq_true, decide_eq_true_eq]
  intro z hz
  exact List.le_of_mem_argmax hz hm

/-- A modal value's multiplicity dominates every member's multiplicity. -/
theorem modal_count_le (l : List Int) (y z : Int) (hy : isModal l y = true)
    (hz : z ∈ l) : l.count z ≤ l.count y := by
  simp only [isModal, List.all_eq_true, decide_eq_true_eq] at hy
  exact hy z hz

/-- `commonYear` is exactly the pandas mode: a latest year of maximal
multiplicity, and the least such value. -/
theorem commonYear_spec (rows : List CorrRow) (h : rows ≠ []) :
    commonYear rows ∈ latestYears rows ∧
    (∀ z ∈ latestYears rows,
      (latestYears rows).count z ≤ (latestYears rows).count (commonYear rows)) ∧
    (∀ z ∈ latestYears rows,
      (latestYears rows).count z = (latestYears rows).count (commonYear rows) →
        commonYear rows ≤ z) := by
  have hly : latestYears rows ≠ [] := by
    obtain ⟨r, rs, rfl⟩ := List.exists_cons_of_ne_nil h
    simp only [latestYears, imageIds, ne_eq, List.map_eq_nil_iff, List.dedup_eq_nil]
    simp
  obtain ⟨y0, hy0, hy0m⟩ := exists_modal (latestYears rows) hly
  have hfilter : y0 ∈ (latestYears rows).filter (isModal (latestYears rows)) :=
    List.mem_filter.mpr ⟨hy0, hy0m⟩
  rcases hf : (latestYears rows).filter (isModal (latestYears rows)) with _ | ⟨x, xs⟩
  · rw [hf] at hfilter; simp at hfilter
  · have hcy : commonYear rows = xs.foldl min x := by
      simp only [commonYear]
      rw [hf]
    rw [hcy]
    have hmem : xs.foldl min x ∈ x :: xs := foldl_min_mem xs x
    rw [← hf] at hmem
    have hmem2 := List.mem_filter.mp hmem
    refine ⟨hmem2.1, fun z hz => modal_count_le _ _ z hmem2.2 hz, ?_⟩
    intro z hz hcount
    have hzmodal : isModal (latestYears rows) z = true := by
      simp only [isModal, List.all_eq_true, decide_eq_true_eq]
      intro w hw
      exact (modal_count_le _ _ w hmem2.2 hw).trans hcount.ge
    have hzf : z ∈ x :: xs := by
      rw [← hf]
      exact List.mem_filter.mpr ⟨hz, hzmodal⟩
    exact foldl_min_le xs x z hzf

/-- The source's append loop builds exactly the map over the rows. -/
theorem foldl_append_map (l : List CorrRow) (acc : List String) :
    l.foldl (fun acc r => acc ++ [mkPath r.year r.image_id]) acc =
      acc ++ l.map (fun r => mkPath r.year r.image_id) := by
  induction l generalizing acc with
  | nil => simp
  | cons r rs ih => simp [List.foldl, ih]

/-- `get_image_paths_for_uid` returns one constructed path per selected row,
in the table's row order. -/
theorem paths_eq_map (uid : String) (gdf : List CorrRow) :
    get_image_paths_for_uid uid gdf =
      ((uidRows gdf uid).filter (fun r => r.year = commonYear (uidRows gdf uid))).map
        (fun r => mkPath r.year r.image_id) := by
  unfold get_image_paths_for_uid
  by_cases h : (uidRows gdf uid).isEmpty
  · simp [h, List.isEmpty_iff.mp h]
  · simp [h, foldl_append_map]

/-- The loop over candidate paths returns the first successful attempt. -/
theorem tileLoop_fst (attempt : String → Option TileResult) (l : List String) :
    (tileLoop attempt l).1 = l.findSome? attempt := by
  induction l with
  | nil => rfl
  | cons p rest ih =>
    simp only [tileLoop, List.findSome?]
    cases attempt p with
    | none => simpa using ih
    | some r => rfl

/-- The tile reader equals `findSome?` of the single-path attempt. -/
theorem get_image_tile_eq_findSome (env : GcsEnv) (aoi : Aoi) (tileSize : Nat)
    (gcsPaths : List String) :
    get_image_tile env aoi tileSize gcsPaths =
      gcsPaths.findSome? (attemptTile env aoi tileSize) := by
  unfold get_image_tile get_image_tile_run
  by_cases h : gcsPaths.isEmpty
  · rw [List.isEmpty_iff.mp h]; simp
  · simp only [h, if_false, Bool.false_eq_true]
    exact tileLoop_fst _ _

/-- A string is a substring of itself. -/
theorem substrOf_self (s : String) : substrOf s s :=
  List.infix_refl _

/-- A substring of the left part is a substring of the concatenation. -/
theorem substrOf_appendL (n a b : String) (h : substrOf n a) :
    substrOf n (a ++ b) := by
  unfold substrOf at h ⊢
  rw [String.data_append]
  exact h.trans (List.prefix_append a.data b.data).isInfix

/-- A substring of the right part is a substring of the concatenation. -/
theorem substrOf_appendR (n a b : String) (h : substrOf n b) :
    substrOf n (a ++ b) := by
  unfold substrOf at h ⊢
  rw [String.data_append]
  exact h.trans (List.suffix_append a.data b.data).isInfix

/-- Every constructed path contains the year rendered as a string. -/
theorem substr_year (y : Int) (i : String) : substrOf y.repr (mkPath y i) := by
  unfold mkPath
  apply substrOf_appendL
  apply substrOf_appendL
  apply substrOf_appendR
  unfold mosaicName quarterStr
  apply substrOf_appendL
  apply substrOf_appendR
  apply substrOf_appendL
  exact substrOf_self _

/-- Every constructed path contains the image id. -/
theorem substr_id (y : Int) (i : String) : substrOf i (mkPath y i) := by
  unfold mkPath fileName
  apply substrOf_appendR
  apply substrOf_appendL
  apply substrOf_appendR
  exact substrOf_self _

/-- Every constructed path contains the quad marker. -/
theorem substr_quad (y : Int) (i : String) : substrOf "quad" (mkPath y i) := by
  unfold mkPath fileName
  apply substrOf_appendR
  apply substrOf_appendR
  show ("quad" : String).data <:+: ("_quad.tif" : String).data
  exact ⟨['_'], ".tif".data, by decide⟩

/-- Claim C1, counterexample.  On the table where image A is only available
in 2019 and image B only in 2022, the spec's rule (no common year, so the
maximum of the union) selects 2022 and keeps only B, but the source's mode
of the per-image latest years ties and pandas returns the smallest, 2019, so
the source keeps only A. -/
theorem C1_counterexample :
    commonYear (uidRows exTable1 "u1") = 2019 ∧
    specSelectedYear (uidRows exTable1 "u1") = 2022 ∧
    commonYear (uidRows exTable1 "u1") ≠ specSelectedYear (uidRows exTable1 "u1") ∧
    get_image_paths_for_uid "u1" exTable1 = [mkPath 2019 "A"] ∧
    specCandidates (uidRows exTable1 "u1") = [("B", 2022)] := by
  decide

/-- Claim C1 (amended): for every table and uid with at least one matching
row, the selected year is the most frequent value among the per-image_id
latest years (the smallest such value on a tie), and the result contains one
path per row of the uid whose year equals the selected year, in row order. -/
theorem C1_year_selection_mode (gdf : List CorrRow) (uid : String)
    (h : uidRows gdf uid ≠ []) :
    commonYear (uidRows gdf uid) ∈ latestYears (uidRows gdf uid) ∧
    (∀ z ∈ latestYears (uidRows gdf uid),
      (latestYears (uidRows gdf uid)).count z ≤
        (latestYears (uidRows gdf uid)).count (commonYear (uidRows gdf uid))) ∧
    (∀ z ∈ latestYears (uidRows gdf uid),
      (latestYears (uidRows gdf uid)).count z =
        (latestYears (uidRows gdf uid)).count (commonYear (uidRows gdf uid)) →
      commonYear (uidRows gdf uid) ≤ z) ∧
    get_image_paths_for_uid uid gdf =
      ((uidRows gdf uid).filter (fun r => r.year = commonYear (uidRows gdf uid))).map
        (fun r => mkPath r.year r.image_id) := by
  obtain ⟨h1, h2, h3⟩ := commonYear_spec (uidRows gdf uid) h
  exact ⟨h1, h2, h3, paths_eq_map uid gdf⟩

/-- Witness for C1: the year-selection theorem applied to a concrete table
with image ids A (2020) and B (2021, 2020); the mode of the latest years
[2020, 2021] ties and the smaller, 2020, is selected. -/
theorem C1_witness :
    uidRows exTableW "w" ≠ [] ∧
    commonYear (uidRows exTableW "w") ∈ latestYears (uidRows exTableW "w") ∧
    commonYear (uidRows exTableW "w") = 2020 :=
  ⟨by decide, (C1_year_selection_mode exTableW "w" (by decide)).1, by decide⟩

/-- Claim C2, counterexample.  A table parsed with declared CRS EPSG:4326 is
returned by the loader with that CRS intact, not overridden to EPSG:3413. -/
theorem C2_counterexample :
    load_correspondence_data true (some exParsedTable) = some exParsedTable ∧
    exParsedTable.crs ≠ "EPSG:3413" :=
  ⟨rfl, by decide⟩

/-- Claim C2 (amended): on success the loader returns the parsed table
exactly as parsed — declared CRS and coordinates unchanged; it performs no
CRS override and no reprojection. -/
theorem C2_load_returns_parsed_unchanged (pathExists : Bool)
    (parsed : Option CorrTable) (t : CorrTable)
    (h : load_correspondence_data pathExists parsed = some t) : parsed = some t := by
  cases pathExists with
  | false => exact absurd h (by simp [load_correspondence_data])
  | true => simpa [load_correspondence_data] using h

/-- Witness for C2: the loader theorem applied to a concrete successful
load. -/
theorem C2_witness :
    load_correspondence_data true (some exParsedTable) = some exParsedTable ∧
    (some exParsedTable = some exParsedTable) :=
  ⟨rfl, C2_load_returns_parsed_unchanged true (some exParsedTable) exParsedTable rfl⟩

/-- Claim C3, counterexample.  The reader does not reproject: for a
reprojection model that is the identity between equal CRSs but moves points
between distinct ones, the source's reader and the spec-side reprojecting
reader disagree — the source reads the tile from the raw AOI coordinates
even though the AOI is tracked as EPSG:4326 and the raster is EPSG:3413. -/
theorem C3_counterexample : ¬ tileReaderReprojects := by
  intro h
  have hreal : RealisticReproj reprojT := by
    constructor
    · intro c q; simp [reprojT]
    · simp only [reprojT]
      rw [if_neg (by decide)]
      intro hq
      have := congrArg Prod.fst hq
      norm_num at this
  have h2 := h reprojT hreal envT aoiT 2 ["t.tif"]
  have hl : get_image_tile envT aoiT 2 ["t.tif"] ≠ none := by
    intro hc
    norm_num [get_image_tile, get_image_tile_run, tileLoop, attemptTile, envT, srcT, aoiT,
      attemptCore, fromBounds] at hc
    exact Option.noConfusion hc
  have hr : readTileSpec reprojT envT aoiT 2 ["t.tif"] = none := by
    simp [readTileSpec, tileLoop, attemptTileSpec, envT, srcT, aoiT, reprojT,
      attemptCore, fromBounds]
    norm_num
  exact hl (h2.trans hr)

/-- Claim C3 (amended): the tile reader never compares or converts CRSs; its
result is independent of the AOI's declared CRS, and it coincides with the
spec-side reader whose reprojection is the identity everywhere. -/
theorem C3_no_reprojection (env : GcsEnv) (x y : ℚ) (c1 c2 : String)
    (tileSize : Nat) (gcsPaths : List String) :
    get_image_tile env { x := x, y := y, crs := c1 } tileSize gcsPaths =
      get_image_tile env { x := x, y := y, crs := c2 } tileSize gcsPaths ∧
    get_image_tile env { x := x, y := y, crs := c1 } tileSize gcsPaths =
      readTileSpec (fun _ _ q => q) env { x := x, y := y, crs := c1 } tileSize gcsPaths := by
  constructor
  · rfl
  · unfold get_image_tile get_image_tile_run readTileSpec
    by_cases h : gcsPaths.isEmpty
    · simp [h]
    · simp only [h, Bool.false_eq_true, if_false]
      rfl

/-- Claim C4: the reader's result is the first successful per-path attempt in
list order (earlier failures are absorbed, never raised), and when every path
fails the reader returns the no-result value. -/
theorem C4_first_success_wins (env : GcsEnv) (aoi : Aoi) (tileSize : Nat)
    (gcsPaths : List String) :
    get_image_tile env aoi tileSize gcsPaths =
      gcsPaths.findSome? (attemptTile env aoi tileSize) ∧
    ((∀ p ∈ gcsPaths, attemptTile env aoi tileSize p = none) →
      get_image_tile env aoi tileSize gcsPaths = none) := by
  refine ⟨get_image_tile_eq_findSome env aoi tileSize gcsPaths, fun h => ?_⟩
  rw [get_image_tile_eq_findSome, List.findSome?_eq_none_iff]
  exact h

/-- Witness for C4: with a first path that cannot be opened and a second that
succeeds, the result is the second path's attempt and the first path's
failure is absorbed; with only the failing path, the result is none. -/
theorem C4_witness :
    get_image_tile envW aoiT 4 ["bad.tif", "good.tif"] =
      attemptTile envW aoiT 4 "good.tif" ∧
    get_image_tile envW aoiT 4 ["bad.tif"] = none := by
  constructor
  · rw [(C4_first_success_wins envW aoiT 4 ["bad.tif", "good.tif"]).1]
    simp [List.findSome?, attemptTile, envW]
    cases attemptCore srcT aoiT.x aoiT.y 4 <;> rfl
  · exact (C4_first_success_wins envW aoiT 4 ["bad.tif"]).2
      (by intro p hp; simp at hp; simp [hp, attemptTile, envW])

/-- Claim C5, counterexample.  With tile_size 0 the computed window has zero
width and zero height, yet the source returns it as a success instead of
falling through: there is no zero-window check in the source. -/
theorem C5_counterexample :
    get_image_tile envT aoiT 0 ["t.tif"] = some exTileZero ∧
    exTileZero.window.width = 0 ∧ exTileZero.window.height = 0 := by
  refine ⟨?_, rfl, rfl⟩
  norm_num [get_image_tile, get_image_tile_run, tileLoop, attemptTile, envT, srcT, aoiT,
    attemptCore, fromBounds, exTileZero]

/-- Claim C5 (amended): for rasters with nonzero resolutions, a successful
result's window has width and height exactly tile_size, hence both are
positive whenever tile_size is; the source never checks for zero windows, so
only tile_size 0 can produce one. -/
theorem C5_window_equals_tile_size (env : GcsEnv) (aoi : Aoi) (tileSize : Nat)
    (gcsPaths : List String) (r : TileResult)
    (hres : ∀ p s, env p = some s → s.xres ≠ 0 ∧ s.yres ≠ 0)
    (h : get_image_tile env aoi tileSize gcsPaths = some r) :
    r.window.width = (tileSize : ℚ) ∧ r.window.height = (tileSize : ℚ) ∧
    (0 < tileSize → 0 < r.window.width ∧ 0 < r.window.height) := by
  rw [get_image_tile_eq_findSome] at h
  rw [List.findSome?_eq_some_iff] at h
  obtain ⟨l1, p, l2, hsplit, hp, hrest⟩ := h
  unfold attemptTile at hp
  rcases he : env p with _ | src
  · rw [he] at hp; exact absurd hp (by simp)
  · rw [he] at hp
    dsimp only at hp
    obtain ⟨hx, hy⟩ := hres p src he
    unfold attemptCore at hp
    by_cases hb : src.left < aoi.x ∧ aoi.x < src.right ∧ src.bottom < aoi.y ∧ aoi.y < src.top
    · rw [if_pos hb] at hp
      by_cases hro : src.readOk
      · rw [if_pos hro] at hp
        have hr := Option.some.inj hp
        have hw : r.window = fromBounds (aoi.x - ((tileSize : ℚ) / 2) * src.xres)
            (aoi.y - ((tileSize : ℚ) / 2) * src.yres)
            (aoi.x + ((tileSize : ℚ) / 2) * src.xres)
            (aoi.y + ((tileSize : ℚ) / 2) * src.yres) src := by
          rw [← hr]
        have hwidth : r.window.width = (tileSize : ℚ) := by
          rw [hw]
          unfold fromBounds
          field_simp
        have hheight : r.window.height = (tileSize : ℚ) := by
          rw [hw]
          unfold fromBounds
          field_simp
        refine ⟨hwidth, hheight, fun hts => ?_⟩
        constructor
        · rw [hwidth]; exact_mod_cast hts
        · rw [hheight]; exact_mod_cast hts
      · rw [if_neg hro] at hp; exact absurd hp (by simp)
    · rw [if_neg hb] at hp; exact absurd hp (by simp)

/-- Witness for C5: with tile_size 8 over the concrete store, the window is
8 by 8. -/
theorem C5_witness :
    get_image_tile envT aoiT 8 ["t.tif"] = some exTileR ∧
    exTileR.window.width = 8 ∧ exTileR.window.height = 8 := by
  have hread : get_image_tile envT aoiT 8 ["t.tif"] = some exTileR := by
    norm_num [get_image_tile, get_image_tile_run, tileLoop, attemptTile, envT, srcT, aoiT,
      attemptCore, fromBounds, exTileR]
  have hres : ∀ p s, envT p = some s → s.xres ≠ 0 ∧ s.yres ≠ 0 := by
    intro p s hps
    by_cases hp : p = "t.tif"
    · simp [envT, hp] at hps
      rw [← hps]
      norm_num [srcT]
    · simp [envT, hp] at hps
  have h := C5_window_equals_tile_size envT aoiT 8 ["t.tif"] exTileR hres hread
  exact ⟨hread, by exact_mod_cast h.1, by exact_mod_cast h.2.1⟩

/-- Claim C6, counterexample.  A duplicated correspondence row produces a
duplicated path: the returned list is not duplicate-free (so in particular
not deduplicated and sorted as the claim states). -/
theorem C6_counterexample :
    get_image_paths_for_uid "u6" exTable6 = [mkPath 2020 "A", mkPath 2020 "A"] ∧
    ¬ (get_image_paths_for_uid "u6" exTable6).Nodup := by
  decide

/-- Claim C6 (amended): the path list contains one constructed path per
selected row, in the table's row order; it is neither deduplicated nor
sorted. -/
theorem C6_paths_in_row_order (uid : String) (gdf : List CorrRow) :
    get_image_paths_for_uid uid gdf =
      ((uidRows gdf uid).filter (fun r => r.year = commonYear (uidRows gdf uid))).map
        (fun r => mkPath r.year r.image_id) :=
  paths_eq_map uid gdf

/-- Claim C7: every returned path comes from a selected row and contains, as
substrings, the row's year rendered as a string, the row's image id, and the
literal quad marker. -/
theorem C7_paths_contain_year_id_quad (gdf : List CorrRow) (uid : String)
    (p : String) (hp : p ∈ get_image_paths_for_uid uid gdf) :
    ∃ r ∈ uidRows gdf uid,
      r.year = commonYear (uidRows gdf uid) ∧ p = mkPath r.year r.image_id ∧
      substrOf r.year.repr p ∧ substrOf r.image_id p ∧ substrOf "quad" p := by
  rw [paths_eq_map] at hp
  obtain ⟨r, hr, rfl⟩ := List.mem_map.mp hp
  have hr2 := List.mem_filter.mp hr
  exact ⟨r, hr2.1, by simpa using hr2.2, rfl, substr_year _ _, substr_id _ _,
    substr_quad _ _⟩

/-- Witness for C7: the containment theorem applied to the concrete path the
source returns for exTable1. -/
theorem C7_witness :
    mkPath 2019 "A" ∈ get_image_paths_for_uid "u1" exTable1 ∧
    ∃ r ∈ uidRows exTable1 "u1",
      r.year = commonYear (uidRows exTable1 "u1") ∧
      mkPath 2019 "A" = mkPath r.year r.image_id ∧
      substrOf r.year.repr (mkPath 2019 "A") ∧
      substrOf r.image_id (mkPath 2019 "A") ∧ substrOf "quad" (mkPath 2019 "A") :=
  ⟨by decide, C7_paths_contain_year_id_quad exTable1 "u1" (mkPath 2019 "A") (by decide)⟩

/-- Claim C8: the feature-context builder returns all geometries of the rows
matching the uid together with the centroid of their union, and the
no-result value when nothing matches; on the concrete overlapping geometries
the union's centroid differs from the mean of the individual centroids. -/
theorem C8_feature_info_union_centroid (gdf : List FeatRow) (uid : String) :
    (matchedRows gdf uid ≠ [] →
      get_feature_info uid gdf =
        some ((matchedRows gdf uid).map (fun r => r.geom),
          centroidOf (unionGeoms ((matchedRows gdf uid).map (fun r => r.geom))))) ∧
    (matchedRows gdf uid = [] → get_feature_info uid gdf = none) ∧
    centroidOf (unionGeoms ((matchedRows exPolyRows "f1").map (fun r => r.geom))) ≠
      centroidOf (((matchedRows exPolyRows "f1").map (fun r => r.geom)).map centroidOf) := by
  refine ⟨fun h => ?_, fun h => ?_, ?_⟩
  · unfold get_feature_info
    rw [if_neg (by simpa using h)]
  · unfold get_feature_info
    rw [if_pos (by simpa using h)]
  · norm_num [matchedRows, exPolyRows, unionGeoms, centroidOf, List.dedup]

/-- Witness for C8: the builder applied to the concrete overlapping rows;
the returned centroid is the union's centroid (1, 0), not the centroid
mean (1/2, 0). -/
theorem C8_witness :
    matchedRows exPolyRows "f1" ≠ [] ∧
    get_feature_info "f1" exPolyRows =
      some ((matchedRows exPolyRows "f1").map (fun r => r.geom),
        centroidOf (unionGeoms ((matchedRows exPolyRows "f1").map (fun r => r.geom)))) :=
  ⟨by simp [matchedRows, exPolyRows],
    (C8_feature_info_union_centroid exPolyRows "f1").1 (by simp [matchedRows, exPolyRows])⟩

/-- Claim C9: a uid matching no row of the correspondence table yields the
empty path list (and the embedding is a total function, so no error is
raised). -/
theorem C9_absent_uid_returns_empty (gdf : List CorrRow) (uid : String)
    (h : ∀ r ∈ gdf, r.uid ≠ uid) :
    get_image_paths_for_uid uid gdf = [] := by
  have hrows : uidRows gdf uid = [] := by
    rw [uidRows, List.filter_eq_nil_iff]
    intro r hr
    simp [h r hr]
  unfold get_image_paths_for_uid
  rw [hrows]
  rfl

/-- Witness for C9: a uid absent from the concrete table. -/
theorem C9_witness :
    (∀ r ∈ exTable1, r.uid ≠ "zz") ∧ get_image_paths_for_uid "zz" exTable1 = [] :=
  ⟨by decide, C9_absent_uid_returns_empty exTable1 "zz" (by decide)⟩

/-- Claim C10: on an empty path list the reader returns the no-result value
with no observable effect: the GCS client is never constructed and no path is
opened. -/
theorem C10_empty_paths_no_io (env : GcsEnv) (aoi : Aoi) (tileSize : Nat) :
    get_image_tile_run env aoi tileSize [] =
      (none, { authDone := false, opened := [] }) :=
  rfl
